import Mathlib

/-!
Shallow embedding of the ShoreSquad weather-forecast ingestion path
(`src/js/weather.js`): the condition-to-emoji lookup (`getWeatherEmoji`),
the forecast normalizer (`parseForecast`), the date helpers (`getDayName`,
`formatDate`), the fetch wrapper (`fetch4DayForecast`) and the orchestration
flow (`initWeather`), together with theorems settling the claims of the
specification about them.

Modelling choices:
- JavaScript `undefined`-able fields become `Option`; JS runtime type errors
  (reading a property of `undefined`) become the `Except` error branch.
- A JS `Date` is modelled as a civil calendar date (`CivilDate`); the source
  expression `date.setDate(date.getDate() + index)` becomes `normDate`, which normalizes
  an out-of-range day-of-month through the Gregorian calendar exactly as the
  JS Date object does.  `getDay` embeds JS `Date.prototype.getDay` (0 = Sun)
  via the Zeller congruence.
- The DOM side effects of `initWeather` become an explicit list of operations
  (`DomOp`) folded over a DOM state, so call counts and final visibility are
  plain functions of the run.
-/

deriving instance DecidableEq for Except

namespace ShoreSquad

/-! ## Calendar dates (embedding of the JS `Date` usage in weather.js) -/

/-- A civil (Gregorian) calendar date; `month` is 1-based (1 = January),
matching `getMonth() + 1` in the source function `formatDate`. -/
structure CivilDate where
  year : Nat
  month : Nat
  day : Nat
deriving DecidableEq, Repr

/-- Gregorian leap-year test. -/
def isLeap (y : Nat) : Bool :=
  (y % 4 == 0 && y % 100 != 0) || y % 400 == 0

/-- Number of days in month `m` (1-based) of year `y`. -/
def daysInMonth (y m : Nat) : Nat :=
  if m = 2 then (if isLeap y then 29 else 28)
  else if m = 4 ∨ m = 6 ∨ m = 9 ∨ m = 11 then 30 else 31

theorem daysInMonth_pos (y m : Nat) : 0 < daysInMonth y m := by
  unfold daysInMonth
  split
  · split <;> omega
  · split <;> omega

/-- A structurally valid calendar date. -/
def CivilDate.Valid (d : CivilDate) : Prop :=
  1 ≤ d.month ∧ d.month ≤ 12 ∧ 1 ≤ d.day ∧ d.day ≤ daysInMonth d.year d.month

instance (d : CivilDate) : Decidable d.Valid := by
  unfold CivilDate.Valid; infer_instance

/-- Worker for `normDate`, structurally recursive on a fuel argument so that
it computes inside the kernel.  Each rollover step removes at least one day
(a month has at least 28 days), so fuel `dv` always suffices. -/
def normDateFuel : Nat → Nat → Nat → Nat → CivilDate
  | 0, y, m, dv => ⟨y, m, dv⟩
  | fuel + 1, y, m, dv =>
    if dv ≤ daysInMonth y m then ⟨y, m, dv⟩
    else if m < 12 then normDateFuel fuel y (m + 1) (dv - daysInMonth y m)
    else normDateFuel fuel (y + 1) 1 (dv - daysInMonth y 12)

/-- Embedding of the JS `Date` day-of-month normalization performed by
`date.setDate(date.getDate() + index)` in `parseForecast`: a day value `dv`
that exceeds the length of the month rolls over into the following months/years. -/
def normDate (y m dv : Nat) : CivilDate :=
  normDateFuel dv y m dv

/-- The result of `normDateFuel` does not depend on the fuel, provided the
fuel is at least the day value. -/
theorem normDateFuel_congr :
    ∀ (f1 f2 y m dv : Nat), dv ≤ f1 → dv ≤ f2 →
      normDateFuel f1 y m dv = normDateFuel f2 y m dv := by
  intro f1
  induction f1 with
  | zero =>
    intro f2 y m dv h1 h2
    have hdv : dv = 0 := by omega
    subst hdv
    cases f2 with
    | zero => rfl
    | succ f3 =>
      show _ = if 0 ≤ daysInMonth y m then (⟨y, m, 0⟩ : CivilDate) else _
      rw [if_pos (Nat.zero_le _)]
      rfl
  | succ f1 ih =>
    intro f2 y m dv h1 h2
    cases f2 with
    | zero =>
      have hdv : dv = 0 := by omega
      subst hdv
      show (if 0 ≤ daysInMonth y m then (⟨y, m, 0⟩ : CivilDate) else _) = _
      rw [if_pos (Nat.zero_le _)]
      rfl
    | succ f3 =>
      show (if dv ≤ daysInMonth y m then (⟨y, m, dv⟩ : CivilDate) else _) =
        (if dv ≤ daysInMonth y m then (⟨y, m, dv⟩ : CivilDate) else _)
      by_cases hle : dv ≤ daysInMonth y m
      · rw [if_pos hle, if_pos hle]
      · rw [if_neg hle, if_neg hle]
        have hm1 := daysInMonth_pos y m
        have hm12 := daysInMonth_pos y 12
        by_cases hm : m < 12
        · rw [if_pos hm, if_pos hm]
          exact ih f3 y (m + 1) (dv - daysInMonth y m) (by omega) (by omega)
        · rw [if_neg hm, if_neg hm]
          exact ih f3 (y + 1) 1 (dv - daysInMonth y 12) (by omega) (by omega)

/-- The defining equation of the rollover loop of the source. -/
theorem normDate_unfold (y m dv : Nat) :
    normDate y m dv =
      if dv ≤ daysInMonth y m then ⟨y, m, dv⟩
      else if m < 12 then normDate y (m + 1) (dv - daysInMonth y m)
      else normDate (y + 1) 1 (dv - daysInMonth y 12) := by
  show normDateFuel dv y m dv = _
  cases hdv : dv with
  | zero =>
    rw [if_pos (Nat.zero_le _)]
    rfl
  | succ dv2 =>
    show (if dv2 + 1 ≤ daysInMonth y m then (⟨y, m, dv2 + 1⟩ : CivilDate) else _) = _
    by_cases hle : dv2 + 1 ≤ daysInMonth y m
    · rw [if_pos hle, if_pos hle]
    · rw [if_neg hle, if_neg hle]
      have hm1 := daysInMonth_pos y m
      have hm12 := daysInMonth_pos y 12
      by_cases hm : m < 12
      · rw [if_pos hm, if_pos hm]
        exact normDateFuel_congr dv2 _ y (m + 1) _ (by omega) (by omega)
      · rw [if_neg hm, if_neg hm]
        exact normDateFuel_congr dv2 _ (y + 1) 1 _ (by omega) (by omega)

/-- The source operation `date.setDate(date.getDate() + index)` on date `d`. -/
def setDatePlus (d : CivilDate) (index : Nat) : CivilDate :=
  normDate d.year d.month (d.day + index)

/-- Specification-side successor date: advance by exactly one calendar day. -/
def nextDay (d : CivilDate) : CivilDate :=
  if d.day < daysInMonth d.year d.month then ⟨d.year, d.month, d.day + 1⟩
  else if d.month < 12 then ⟨d.year, d.month + 1, 1⟩
  else ⟨d.year + 1, 1, 1⟩

/-- Embedding of JS `Date.prototype.getDay` (0 = Sunday … 6 = Saturday),
computed by the Zeller congruence. -/
def getDay (d : CivilDate) : Nat :=
  let y := if d.month ≤ 2 then d.year - 1 else d.year
  let mm := if d.month ≤ 2 then d.month + 12 else d.month
  let K := y % 100
  let J := y / 100
  (d.day + 13 * (mm + 1) / 5 + K + K / 4 + J / 4 + 5 * J + 6) % 7

/-- The `days` array of `getDayName` in weather.js. -/
def dayNames : List String := ["Sun", "Mon", "Tue", "Wed", "Thu", "Fri", "Sat"]

/-- Embedding of `getDayName` in weather.js: `days[date.getDay()]`. -/
def getDayName (d : CivilDate) : String :=
  dayNames.getD (getDay d) "undefined"

/-- Embedding of JS `String.prototype.padStart(2, '0')`. -/
def padStart2 (s : String) : String :=
  if s.length < 2 then String.mk (List.replicate (2 - s.length) '0') ++ s else s

/-- Embedding of `formatDate` in weather.js: zero-padded `DD/MM`
(`getDate()` is the day of month, `getMonth() + 1` is our 1-based month). -/
def formatDate (d : CivilDate) : String :=
  padStart2 (toString d.day) ++ "/" ++ padStart2 (toString d.month)

/-! ## Condition → emoji lookup (embedding of `WeatherAPI.getWeatherEmoji`) -/

/-- The `weatherEmoji` table of weather.js, in its declaration order. -/
def weatherEmoji : List (String × String) :=
  [("Sunny", "☀️"),
   ("Partly cloudy", "⛅"),
   ("Cloudy", "☁️"),
   ("Overcast", "☁️"),
   ("Light rain", "🌧️"),
   ("Moderate rain", "🌧️"),
   ("Heavy rain", "⛈️"),
   ("Thundery showers", "⛈️"),
   ("Thunderstorm", "⛈️"),
   ("Windy", "💨"),
   ("Fair", "☀️"),
   ("Hazy", "🌫️"),
   ("Mist", "🌫️"),
   ("Fog", "🌫️")]

/-- The default emoji returned by `getWeatherEmoji` when nothing matches. -/
def defaultEmoji : String := "🌤️"

/-- Embedding of JS `String.prototype.toLowerCase` (ASCII range, which covers
all the table keys). -/
def jsToLower (s : String) : String :=
  String.mk (s.data.map Char.toLower)

/-- Does `pat` occur as a contiguous run inside `s`? -/
def strIncludes (s pat : List Char) : Bool :=
  match s with
  | [] => pat.isEmpty
  | _ :: s2 => pat.isPrefixOf s || strIncludes s2 pat

/-- Embedding of JS `String.prototype.includes`. -/
def jsIncludes (s pat : String) : Bool :=
  strIncludes s.data pat.data

/-- A JS value observable from the emoji lookup: a string, a member
inherited from `Object.prototype` (a function, or an object in the case of
`__proto__` — truthy, but not an emoji string), or `undefined`. -/
inductive JsValue where
  | str (s : String)
  | protoMember (name : String)
  | undefined
deriving DecidableEq, Repr

/-- The property names every plain JS object literal inherits from
`Object.prototype` (including the Annex B legacy accessors present in
browsers): bracket access on `weatherEmoji` with one of these names yields a
truthy non-string member instead of `undefined`. -/
def objectProtoProps : List String :=
  ["constructor", "hasOwnProperty", "isPrototypeOf", "propertyIsEnumerable",
   "toLocaleString", "toString", "valueOf", "__proto__",
   "__defineGetter__", "__defineSetter__", "__lookupGetter__", "__lookupSetter__"]

/-- Embedding of the JS bracket access `this.weatherEmoji[condition]`
(weather.js line 45): an own entry of the table yields its string value;
otherwise a property name inherited from `Object.prototype` yields that
(truthy, non-string) member; otherwise `undefined`. -/
def weatherEmojiAccess (c : String) : JsValue :=
  match weatherEmoji.lookup c with
  | some e => .str e
  | none => if c ∈ objectProtoProps then .protoMember c else .undefined

/-- The substring-matching fallback of `getWeatherEmoji`, then the default:
the first table entry, in declaration order, whose lowercased key occurs in
the lowercased condition text. -/
def substringLookup (c : String) : JsValue :=
  match weatherEmoji.find? (fun kv => jsIncludes (jsToLower c) (jsToLower kv.1)) with
  | some kv => .str kv.2
  | none => .str defaultEmoji

/-- Embedding of `WeatherAPI.getWeatherEmoji`.  The argument is `Option String`
because the call site passes `day.text`, which may be `undefined` in JS; both
`undefined` and the empty string are falsy, so the `if (!condition)` guard
returns the default for them.  The exact-match step is the JS bracket access
`this.weatherEmoji[condition]`, which consults the prototype chain: a truthy
result — an own entry (a nonempty string) or an inherited member such as the
one named "toString" — is returned as-is; otherwise the substring loop runs
(over own enumerable entries only, as `Object.entries` does), then the
default is returned. -/
def getWeatherEmoji (condition : Option String) : JsValue :=
  match condition with
  | none => .str defaultEmoji
  | some c =>
    if c = "" then .str defaultEmoji
    else
      match weatherEmojiAccess c with
      | .str e => if e = "" then substringLookup c else .str e
      | .protoMember n => .protoMember n
      | .undefined => substringLookup c

/-! ## Raw response data model (wire shape consumed by `parseForecast`) -/

/-- The `wind` sub-object of a raw per-day entry; in JS either sub-field may
be absent even when the object itself is present. -/
structure Wind where
  direction : Option String
  speed : Option String
deriving DecidableEq, Repr

/-- One raw per-day entry of the NEA response (`items[0].forecast[i]`). -/
structure DayEntry where
  text : Option String
  high : Option String
  low : Option String
  wind : Option Wind
deriving DecidableEq, Repr

/-- The `valid_period` object; its `start` is modelled as the civil date the
ISO `start` string denotes (the source immediately parses it via `new Date`). -/
structure ValidPeriod where
  start : CivilDate
deriving DecidableEq, Repr

/-- One raw `items[k]` record; `valid_period` and `forecast` may be absent,
in which case `parseForecast` hits a runtime type error. -/
structure ForecastItem where
  valid_period : Option ValidPeriod
  forecast : Option (List DayEntry)
deriving DecidableEq, Repr

/-- The raw API response.  `items` is `none` when the key is absent
(`!data.items` falsy check) and `some []` when present but empty. -/
structure RawForecastResponse where
  items : Option (List ForecastItem)
deriving DecidableEq, Repr

/-- A JS runtime error escaping `parseForecast` (a `TypeError` from reading a
property of `undefined`). -/
inductive JsError where
  | typeError (msg : String)
deriving DecidableEq, Repr

/-- The message string of a `JsError` (used for `error.message` in the
`catch` block of `initWeather`). -/
def JsError.message : JsError → String
  | .typeError m => m

/-! ## Normalized output (the per-day record built by `parseForecast`) -/

/-- Value of the `high`/`low` output fields: an integer from `parseInt`, JS
`NaN` when `parseInt` finds no digits, or the "N/A" sentinel. -/
inductive TempVal where
  | int (n : Int)
  | nan
  | na
deriving DecidableEq, Repr

/-- Embedding of JS `parseInt` on a string (radix 10): skip leading spaces,
optional sign, then a maximal run of digits; `none` models `NaN`. -/
def jsParseInt (s : String) : Option Int :=
  let cs := s.toList.dropWhile (fun c => c = ' ')
  let sign : Int := if cs.head? = some '-' then -1 else 1
  let cs2 := if cs.head? = some '-' ∨ cs.head? = some '+' then cs.tail else cs
  let ds := cs2.takeWhile Char.isDigit
  if ds.isEmpty then none
  else some (sign * (ds.foldl (fun acc c => acc * 10 + (c.toNat - 48)) 0 : Nat))

/-- Embedding of `` day.high ? parseInt(day.high) : "N/A" ``: `undefined`
and the empty string are falsy and give the sentinel. -/
def tempField (f : Option String) : TempVal :=
  match f with
  | none => .na
  | some s =>
    if s = "" then .na
    else
      match jsParseInt s with
      | some n => .int n
      | none => .nan

/-- JS stringification of a possibly-`undefined` string value inside a
template literal. -/
def jsShow (v : Option String) : String :=
  match v with
  | none => "undefined"
  | some s => s

/-- Embedding of `` day.wind ? `${day.wind.direction} ${day.wind.speed}` :
"N/A" ``: only the presence of the `wind` object is tested; absent sub-fields
are stringified as `"undefined"`. -/
def windField (w : Option Wind) : String :=
  match w with
  | none => "N/A"
  | some w0 => jsShow w0.direction ++ " " ++ jsShow w0.speed

/-- The normalized per-day record built by `parseForecast`. -/
structure DayForecast where
  date : CivilDate
  dayName : String
  dateStr : String
  condition : Option String
  high : TempVal
  low : TempVal
  emoji : JsValue
  wind : String
deriving DecidableEq, Repr

/-- The record built for entry `day` at position `index` from validity start
date `start` (body of the `forecast.map((day, index) => ...)` callback). -/
def mkDayForecast (start : CivilDate) (index : Nat) (day : DayEntry) : DayForecast :=
  let date := setDatePlus start index
  { date := date
    dayName := getDayName date
    dateStr := formatDate date
    condition := day.text
    high := tempField day.high
    low := tempField day.low
    emoji := getWeatherEmoji day.text
    wind := windField day.wind }

/-- Indexed map over a list, starting from `i` (embedding of the JS
second argument of the `Array.prototype.map` callback). -/
def mapIdxFrom (f : Nat → α → β) (i : Nat) : List α → List β
  | [] => []
  | a :: as => f i a :: mapIdxFrom f (i + 1) as

/-- Embedding of `WeatherAPI.parseForecast`.  Returns `.ok []` when `items`
is absent or empty; raises the JS `TypeError` when the first item lacks
`valid_period` (line 88 reads `.start` of `undefined`) or lacks `forecast`
(line 90 calls `.map` on `undefined`); otherwise maps each entry to its
`DayForecast`.  The `valid_period` error fires first because line 88 runs
before the `.map` call of line 90. -/
def parseForecast (data : RawForecastResponse) : Except JsError (List DayForecast) :=
  match data.items with
  | none => .ok []
  | some [] => .ok []
  | some (item0 :: _) =>
    match item0.valid_period with
    | none => .error (.typeError "Cannot read properties of undefined (reading start)")
    | some vp =>
      match item0.forecast with
      | none => .error (.typeError "Cannot read properties of undefined (reading map)")
      | some fc => .ok (mapIdxFrom (mkDayForecast vp.start) 0 fc)

/-! ## Fetch wrapper and orchestration flow (`fetch4DayForecast`, `initWeather`) -/

/-- An HTTP response as seen by the `fetch` call: its `ok` flag, its numeric
`status`, and the result of `response.json()` (`.error` when the body is not
valid JSON). -/
structure HttpResponse where
  ok : Bool
  status : Nat
  json : Except String RawForecastResponse
deriving Repr

/-- The environment of one run: either the transport fails (DNS, connection
refused — the `fetch` promise rejects), or a response arrives. -/
inductive Transport where
  | transportFail (msg : String)
  | resp (r : HttpResponse)
deriving Repr

/-- Embedding of `WeatherAPI.fetch4DayForecast`: a transport failure or a
non-`ok` status or an unparsable body is thrown (re-thrown unchanged by its
own `catch`); otherwise the parsed JSON is returned.  The error carries the
JS `error.message` string. -/
def fetch4DayForecast (t : Transport) : Except String RawForecastResponse :=
  match t with
  | .transportFail msg => .error msg
  | .resp r =>
    if r.ok then r.json
    else .error ("API error: " ++ toString r.status)

/-- Whether `fetch4DayForecast` fails on `t` (transport failure, non-success HTTP
status, or JSON parse failure). -/
def fetchFails (t : Transport) : Bool :=
  match fetch4DayForecast t with
  | .error _ => true
  | .ok _ => false

/-- One DOM side effect performed by `initWeather`: dismissing the loading
indicator (`loadingEl.style.display = none`), rendering the forecast cards
(`forecastContainer.innerHTML = ...`), or showing the error view
(`errorEl.style.display = block` plus its message). -/
inductive DomOp where
  | dismissLoading
  | renderForecast (days : List DayForecast)
  | showError (msg : String)
deriving DecidableEq, Repr

/-- The user-facing message built in the `catch` block of `initWeather`. -/
def errorText (msg : String) : String :=
  "Unable to load weather forecast: " ++ msg ++
    ". This is a real-time API call - ensure CORS is enabled or use a proxy server."

/-- The remainder of the `initWeather` try block after parsing: an empty
forecast triggers the explicit `throw new Error` caught below; a non-empty
one dismisses loading and renders; a parse `TypeError` is caught.  Every
caught error dismisses loading, then shows the error view. -/
def initWeatherAfterParse : Except JsError (List DayForecast) → List DomOp
  | .error e => [.dismissLoading, .showError (errorText e.message)]
  | .ok forecast =>
    if forecast.length = 0 then
      [.dismissLoading, .showError (errorText "No forecast data available")]
    else
      [.dismissLoading, .renderForecast forecast]

/-- The `initWeather` body after the fetch resolves: a fetch failure lands in
the catch block, a success continues with parsing. -/
def initWeatherAfterFetch : Except String RawForecastResponse → List DomOp
  | .error msg => [.dismissLoading, .showError (errorText msg)]
  | .ok data => initWeatherAfterParse (parseForecast data)

/-- Embedding of `initWeather` as the sequence of DOM operations one run
performs. -/
def initWeatherOps (t : Transport) : List DomOp :=
  initWeatherAfterFetch (fetch4DayForecast t)

/-- Is this operation a dismissal of the loading indicator? -/
def DomOp.isDismiss : DomOp → Bool
  | .dismissLoading => true
  | _ => false

/-- Is this operation a call to the renderer? -/
def DomOp.isRender : DomOp → Bool
  | .renderForecast _ => true
  | _ => false

/-- Is this operation a call to the error-display sink? -/
def DomOp.isShowError : DomOp → Bool
  | .showError _ => true
  | _ => false

/-- Number of loading-indicator dismissals in a run. -/
def dismissCount (t : Transport) : Nat :=
  ((initWeatherOps t).filter DomOp.isDismiss).length

/-- Number of renderer calls in a run. -/
def renderCount (t : Transport) : Nat :=
  ((initWeatherOps t).filter DomOp.isRender).length

/-- Number of error-display calls in a run. -/
def errorCount (t : Transport) : Nat :=
  ((initWeatherOps t).filter DomOp.isShowError).length

/-- The visible DOM state of the weather widget: whether the loading
indicator is shown, the rendered forecast (if any), and whether the error
view is shown. -/
structure DomState where
  loadingVisible : Bool
  forecastHTML : Option (List DayForecast)
  errorVisible : Bool
deriving DecidableEq, Repr

/-- Initial widget state: loading indicator shown, no forecast markup, error
view hidden (its `display` defaults to hidden in the page). -/
def initialDom : DomState :=
  { loadingVisible := true, forecastHTML := none, errorVisible := false }

/-- Apply one DOM operation to the widget state. -/
def applyOp (s : DomState) : DomOp → DomState
  | .dismissLoading => { s with loadingVisible := false }
  | .renderForecast days => { s with forecastHTML := some days }
  | .showError _ => { s with errorVisible := true }

/-- The widget state after one complete run of `initWeather`. -/
def runInitWeather (t : Transport) : DomState :=
  (initWeatherOps t).foldl applyOp initialDom

/-- The forecast view is visible after a run iff forecast markup was set. -/
def forecastVisible (t : Transport) : Bool :=
  (runInitWeather t).forecastHTML.isSome

/-! ## Specification-side definitions and concrete inputs used by the claims -/

/-- Specification-side description of the icon lookup (spec §4.2), written
from the words of the spec: exact (case-sensitive) table match, otherwise the
first case-insensitive substring match in declaration order, otherwise the
generic default symbol. -/
def iconForSpec (c : String) : String :=
  match weatherEmoji.lookup c with
  | some e => e
  | none =>
    match weatherEmoji.find? (fun kv => jsIncludes (jsToLower c) (jsToLower kv.1)) with
    | some kv => kv.2
    | none => defaultEmoji

/-- The first element of the `items` sequence, when one exists. -/
def firstItem (data : RawForecastResponse) : Option ForecastItem :=
  match data.items with
  | none => none
  | some l => l.head?

/-- A per-day entry carrying only a condition text. -/
def textEntry (t : String) : DayEntry :=
  { text := some t, high := none, low := none, wind := none }

/-- The four per-day entries of the concrete example with validity start
2025-12-07. -/
def sampleEntries : List DayEntry :=
  [textEntry "Sunny", textEntry "Cloudy", textEntry "Light rain", textEntry "Windy"]

/-- The concrete raw response of the example: validity start 2025-12-07 and
four per-day entries. -/
def sampleRaw2025 : RawForecastResponse :=
  ⟨some [{ valid_period := some ⟨⟨2025, 12, 7⟩⟩, forecast := some sampleEntries }]⟩

/-- The normalized sequence the example parses to. -/
def sampleOut : List DayForecast :=
  (parseForecast sampleRaw2025).toOption.getD []

/-- A transport delivering a successful response whose body is the example
raw response. -/
def sampleTransport : Transport :=
  .resp { ok := true, status := 200, json := .ok sampleRaw2025 }

/-- A raw response whose `items` sequence is present but empty. -/
def emptyItemsRaw : RawForecastResponse := ⟨some []⟩

/-- A transport delivering a successful response whose body has `items: []`. -/
def emptyItemsTransport : Transport :=
  .resp { ok := true, status := 200, json := .ok emptyItemsRaw }

/-- A per-day entry whose `wind` object is present but lacks the `direction`
sub-field. -/
def windNoDirEntry : DayEntry :=
  { text := some "Sunny", high := some "31", low := some "25",
    wind := some { direction := none, speed := some "10" } }

/-- A raw response containing `windNoDirEntry` as its only per-day entry. -/
def windNoDirRaw : RawForecastResponse :=
  ⟨some [{ valid_period := some ⟨⟨2025, 12, 7⟩⟩, forecast := some [windNoDirEntry] }]⟩

/-- A transport whose fetch fails with HTTP status 500. -/
def http500Transport : Transport :=
  .resp { ok := false, status := 500, json := .error "unused" }

/-! ## Helper lemmas -/

/-- Computation of `parseForecast` through `firstItem`: the result depends only on
the head of `items`. -/
theorem parseForecast_eq_firstItem (data : RawForecastResponse) :
    parseForecast data =
      match firstItem data with
      | none => .ok []
      | some item0 =>
        match item0.valid_period with
        | none => .error (.typeError "Cannot read properties of undefined (reading start)")
        | some vp =>
          match item0.forecast with
          | none => .error (.typeError "Cannot read properties of undefined (reading map)")
          | some fc => .ok (mapIdxFrom (mkDayForecast vp.start) 0 fc) := by
  obtain ⟨items⟩ := data
  cases items with
  | none => rfl
  | some l =>
    cases l with
    | nil => rfl
    | cons a t => rfl

/-- Evaluation of `parseForecast` on a response with a nonempty, fully-shaped `items`
head. -/
theorem parseForecast_cons (vp : ValidPeriod) (fc : List DayEntry)
    (rest : List ForecastItem) :
    parseForecast ⟨some ({ valid_period := some vp, forecast := some fc } :: rest)⟩ =
      .ok (mapIdxFrom (mkDayForecast vp.start) 0 fc) := rfl

theorem mapIdxFrom_length (f : Nat → α → β) (i : Nat) (l : List α) :
    (mapIdxFrom f i l).length = l.length := by
  induction l generalizing i with
  | nil => rfl
  | cons a as ih => simp [mapIdxFrom, ih]

theorem mapIdxFrom_get (f : Nat → α → β) (l : List α) :
    ∀ (i j : Nat) (h : j < l.length) (h2 : j < (mapIdxFrom f i l).length),
      (mapIdxFrom f i l).get ⟨j, h2⟩ = f (i + j) (l.get ⟨j, h⟩) := by
  induction l with
  | nil => intro i j h h2; exact absurd h (Nat.not_lt_zero j)
  | cons a as ih =>
    intro i j h h2
    cases j with
    | zero => rfl
    | succ j2 =>
      have hh : j2 < as.length := by simpa using h
      have hh2 : j2 < (mapIdxFrom f (i + 1) as).length := by
        rw [mapIdxFrom_length]; exact hh
      show (mapIdxFrom f (i + 1) as).get ⟨j2, hh2⟩ = f (i + (j2 + 1)) (as.get ⟨j2, hh⟩)
      rw [ih (i + 1) j2 hh hh2]
      congr 1
      omega

/-- Advancing a valid date by one day yields a valid date. -/
theorem nextDay_valid (d : CivilDate) (hv : d.Valid) : (nextDay d).Valid := by
  obtain ⟨h1, h2, h3, h4⟩ := hv
  unfold nextDay
  by_cases hd : d.day < daysInMonth d.year d.month
  · simp only [if_pos hd]
    show 1 ≤ d.month ∧ d.month ≤ 12 ∧ 1 ≤ d.day + 1 ∧ d.day + 1 ≤ daysInMonth d.year d.month
    omega
  · simp only [if_neg hd]
    by_cases hm : d.month < 12
    · simp only [if_pos hm]
      show 1 ≤ d.month + 1 ∧ d.month + 1 ≤ 12 ∧ 1 ≤ 1 ∧ 1 ≤ daysInMonth d.year (d.month + 1)
      have := daysInMonth_pos d.year (d.month + 1)
      omega
    · simp only [if_neg hm]
      show 1 ≤ 1 ∧ 1 ≤ 12 ∧ 1 ≤ 1 ∧ 1 ≤ daysInMonth (d.year + 1) 1
      have := daysInMonth_pos (d.year + 1) 1
      omega

/-- One step of the `setDate` rollover agrees with `nextDay`. -/
theorem normDate_step (d : CivilDate) (hv : d.Valid) (k : Nat) :
    normDate d.year d.month (d.day + (k + 1)) =
      normDate (nextDay d).year (nextDay d).month ((nextDay d).day + k) := by
  obtain ⟨h1, h2, h3, h4⟩ := hv
  unfold nextDay
  by_cases hd : d.day < daysInMonth d.year d.month
  · simp only [if_pos hd]
    congr 1
    omega
  · simp only [if_neg hd]
    by_cases hm : d.month < 12
    · simp only [if_pos hm]
      rw [normDate_unfold]
      have hle : ¬ (d.day + (k + 1) ≤ daysInMonth d.year d.month) := by omega
      simp only [if_neg hle, if_pos hm]
      congr 1
      omega
    · simp only [if_neg hm]
      have hm12 : d.month = 12 := by omega
      rw [normDate_unfold]
      have hle : ¬ (d.day + (k + 1) ≤ daysInMonth d.year d.month) := by omega
      simp only [if_neg hle, if_neg hm]
      rw [hm12] at h4 hd
      congr 1
      omega

/-- The source call `setDate(getDate() + n)` on a valid date advances it by
exactly `n` calendar days (iterated `nextDay`). -/
theorem setDatePlus_eq_iterate (n : Nat) :
    ∀ d : CivilDate, d.Valid → setDatePlus d n = nextDay^[n] d := by
  induction n with
  | zero =>
    intro d hv
    obtain ⟨h1, h2, h3, h4⟩ := hv
    unfold setDatePlus
    rw [Nat.add_zero, normDate_unfold]
    simp only [if_pos h4]
    rw [Function.iterate_zero_apply]
  | succ n ih =>
    intro d hv
    unfold setDatePlus
    rw [normDate_step d hv n]
    have h5 := ih (nextDay d) (nextDay_valid d hv)
    unfold setDatePlus at h5
    rw [h5, Function.iterate_succ_apply]

/-- A successful association-list lookup returns one of the stored values. -/
theorem lookup_mem_values {α β : Type} [BEq α] :
    ∀ (l : List (α × β)) (a : α) (b : β), l.lookup a = some b → b ∈ l.map Prod.snd := by
  intro l
  induction l with
  | nil =>
    intro a b h
    exact absurd h (by simp [List.lookup])
  | cons p t ih =>
    intro a b h
    obtain ⟨k, v⟩ := p
    simp only [List.lookup] at h
    rw [List.map_cons]
    split at h
    · injection h with h2
      subst h2
      exact List.mem_cons_self _ _
    · exact List.mem_cons_of_mem _ (ih a b h)

/-! ## Claim theorems -/

/-- C4 (counterexample): the condition text "constructor" has no own table
entry (exact match fails) and no substring match, so the claim requires the
generic default symbol; but the source returns the truthy `constructor`
member found on the prototype chain by the bracket access of line 45 —
neither a mapped symbol nor the default. -/
theorem c4_counterexample :
    getWeatherEmoji (some "constructor") = .protoMember "constructor"
    ∧ JsValue.protoMember "constructor" ≠ .str defaultEmoji
    ∧ weatherEmoji.lookup "constructor" = none
    ∧ weatherEmoji.find?
        (fun kv => jsIncludes (jsToLower "constructor") (jsToLower kv.1)) = none := by
  decide

/-- C4 (amended): for every condition text that is not a property name
inherited from `Object.prototype`, `getWeatherEmoji` returns the mapped
symbol on an exact case-sensitive own-entry match, otherwise the symbol of
the first table entry (in declaration order) whose lowercased key is a
substring of the lowercased condition text, otherwise the generic default
symbol; for a condition text that is an inherited property name
(constructor, toString, __proto__, …) it instead returns that inherited
truthy member.  It never fails either way, and in particular "Sunny" and
"sunny day ahead" map to the Sunny symbol and "quantum weather" to the
default. -/
theorem c4_iconFor_amended :
    (∀ c : String, c ∉ objectProtoProps → getWeatherEmoji (some c) = .str (iconForSpec c))
    ∧ (∀ c : String, c ∈ objectProtoProps → getWeatherEmoji (some c) = .protoMember c)
    ∧ getWeatherEmoji (some "Sunny") = .str "☀️"
    ∧ getWeatherEmoji (some "sunny day ahead") = .str "☀️"
    ∧ getWeatherEmoji (some "quantum weather") = .str defaultEmoji := by
  refine ⟨?_, ?_, by decide, by decide, by decide⟩
  · intro c hc
    have hred : getWeatherEmoji (some c) =
        if c = "" then .str defaultEmoji
        else
          match weatherEmojiAccess c with
          | .str e => if e = "" then substringLookup c else .str e
          | .protoMember n => .protoMember n
          | .undefined => substringLookup c := rfl
    rw [hred]
    by_cases hce : c = ""
    · rw [if_pos hce]
      subst hce
      decide
    · rw [if_neg hce]
      unfold weatherEmojiAccess
      cases hl : weatherEmoji.lookup c with
      | some e =>
        have hall : ∀ x ∈ weatherEmoji.map Prod.snd, x ≠ "" := by decide
        have he : e ≠ "" := hall e (lookup_mem_values weatherEmoji c e hl)
        show (if e = "" then substringLookup c else JsValue.str e) = .str (iconForSpec c)
        rw [if_neg he]
        unfold iconForSpec
        rw [hl]
      | none =>
        show (match (if c ∈ objectProtoProps then JsValue.protoMember c else .undefined) with
          | .str e => if e = "" then substringLookup c else .str e
          | .protoMember n => .protoMember n
          | .undefined => substringLookup c) = .str (iconForSpec c)
        rw [if_neg hc]
        show substringLookup c = .str (iconForSpec c)
        unfold substringLookup iconForSpec
        rw [hl]
        cases hf : weatherEmoji.find? (fun kv => jsIncludes (jsToLower c) (jsToLower kv.1)) with
        | some kv => rfl
        | none => rfl
  · intro c hc
    simp only [objectProtoProps, List.mem_cons, List.not_mem_nil, or_false] at hc
    rcases hc with rfl | rfl | rfl | rfl | rfl | rfl | rfl | rfl | rfl | rfl | rfl | rfl <;> decide

/-- Witness for C4 (amended): both branches applied at concrete inputs — a
regular condition text and an inherited property name. -/
theorem c4_witness :
    ("Sunny" ∉ objectProtoProps ∧ getWeatherEmoji (some "Sunny") = .str (iconForSpec "Sunny"))
    ∧ ("toString" ∈ objectProtoProps
       ∧ getWeatherEmoji (some "toString") = .protoMember "toString") :=
  ⟨⟨by decide, c4_iconFor_amended.1 "Sunny" (by decide)⟩,
   ⟨by decide, c4_iconFor_amended.2.1 "toString" (by decide)⟩⟩

/-- C7: `parseForecast` is pure and deterministic — two applications to the
same raw input (even through an intermediate equality of inputs) yield equal
sequences; in this embedding it is a function of its argument alone, with no
side effects on the input or any other state. -/
theorem c7_parseForecast_pure (d1 d2 : RawForecastResponse) (h : d1 = d2) :
    parseForecast d1 = parseForecast d2 ∧ parseForecast d1 = parseForecast d1 := by
  subst h
  exact ⟨rfl, rfl⟩

/-- Witness for C7 at a concrete input. -/
theorem c7_witness :
    parseForecast sampleRaw2025 = parseForecast sampleRaw2025 ∧
    parseForecast sampleRaw2025 = parseForecast sampleRaw2025 :=
  c7_parseForecast_pure sampleRaw2025 sampleRaw2025 rfl

/-- C8: `parseForecast` consumes only the first element of `items` — any two
raw responses with the same first item (including both having none) parse to
the same result, whatever their later items are. -/
theorem c8_only_first_item (d1 d2 : RawForecastResponse)
    (h : firstItem d1 = firstItem d2) :
    parseForecast d1 = parseForecast d2 := by
  rw [parseForecast_eq_firstItem d1, parseForecast_eq_firstItem d2, h]

/-- Witness for C8: two responses agreeing on the first item but differing in
a later item parse identically. -/
theorem c8_witness :
    firstItem ⟨some [{ valid_period := some ⟨⟨2025, 12, 7⟩⟩, forecast := some sampleEntries }]⟩ =
      firstItem ⟨some [{ valid_period := some ⟨⟨2025, 12, 7⟩⟩, forecast := some sampleEntries },
                       { valid_period := none, forecast := none }]⟩
    ∧ parseForecast ⟨some [{ valid_period := some ⟨⟨2025, 12, 7⟩⟩, forecast := some sampleEntries }]⟩ =
        parseForecast ⟨some [{ valid_period := some ⟨⟨2025, 12, 7⟩⟩, forecast := some sampleEntries },
                             { valid_period := none, forecast := none }]⟩ :=
  ⟨rfl, c8_only_first_item _ _ rfl⟩

/-- C9: `formatDate` on 2025-01-05 yields "05/01" — zero-padded day first,
then zero-padded month, separated by a slash. -/
theorem c9_formatDate_example : formatDate ⟨2025, 1, 5⟩ = "05/01" := by decide

/-- C10 (implicit): on a response whose `items` is non-empty but whose first
item lacks the `valid_period` (so `valid_period.start` is unreachable) or
lacks the `forecast` field, `parseForecast` raises a runtime type error —
the embedding reaches its error branch — rather than returning an empty
sequence or a ParseError value. -/
theorem c10_malformed_first_item (item0 : ForecastItem) (rest : List ForecastItem)
    (h : item0.valid_period = none ∨ item0.forecast = none) :
    ∃ msg, parseForecast ⟨some (item0 :: rest)⟩ = .error (.typeError msg) := by
  have hred : parseForecast ⟨some (item0 :: rest)⟩ =
      (match item0.valid_period with
       | none => .error (.typeError "Cannot read properties of undefined (reading start)")
       | some vp =>
         match item0.forecast with
         | none => .error (.typeError "Cannot read properties of undefined (reading map)")
         | some fc => .ok (mapIdxFrom (mkDayForecast vp.start) 0 fc)) := rfl
  rw [hred]
  rcases h with h | h
  · rw [h]
    exact ⟨_, rfl⟩
  · cases hv : item0.valid_period with
    | none => exact ⟨_, rfl⟩
    | some vp =>
      rw [h]
      exact ⟨_, rfl⟩

/-- Witness for C10: the item lacking both fields is rejected with a type
error. -/
theorem c10_witness :
    ((⟨none, none⟩ : ForecastItem).valid_period = none ∨
      (⟨none, none⟩ : ForecastItem).forecast = none)
    ∧ ∃ msg, parseForecast ⟨some [⟨none, none⟩]⟩ = .error (.typeError msg) :=
  ⟨Or.inl rfl, c10_malformed_first_item ⟨none, none⟩ [] (Or.inl rfl)⟩

/-- C1 (counterexample): with `items: []` the normalize step does return the
empty sequence, yet the ingestion flow calls the error-display sink once and
the renderer never — the claimed routing to an empty render does not happen. -/
theorem c1_counterexample :
    parseForecast emptyItemsRaw = .ok []
    ∧ errorCount emptyItemsTransport = 1
    ∧ renderCount emptyItemsTransport = 0
    ∧ (runInitWeather emptyItemsTransport).errorVisible = true := by decide

/-- C1 (amended): for a raw response whose items sequence is empty,
`parseForecast` returns an empty sequence, but the ingestion flow
(`initWeather`) then routes to the error-display outcome with the message
"No forecast data available" (line 143 throws on an empty forecast), making
exactly one error-display call and no renderer call: the empty forecast is
reported as a failure. -/
theorem c1_empty_routed_to_error (t : Transport) (data : RawForecastResponse)
    (hf : fetch4DayForecast t = .ok data) (hp : parseForecast data = .ok []) :
    initWeatherOps t =
      [.dismissLoading, .showError (errorText "No forecast data available")]
    ∧ errorCount t = 1 ∧ renderCount t = 0 := by
  have hops : initWeatherOps t =
      [.dismissLoading, .showError (errorText "No forecast data available")] := by
    unfold initWeatherOps
    rw [hf]
    simp only [initWeatherAfterFetch]
    rw [hp]
    rfl
  refine ⟨hops, ?_, ?_⟩
  · unfold errorCount
    rw [hops]
    rfl
  · unfold renderCount
    rw [hops]
    rfl

/-- Witness for C1 (amended) at the concrete empty-items transport. -/
theorem c1_witness :
    fetch4DayForecast emptyItemsTransport = .ok emptyItemsRaw
    ∧ parseForecast emptyItemsRaw = .ok []
    ∧ (initWeatherOps emptyItemsTransport =
        [.dismissLoading, .showError (errorText "No forecast data available")]
       ∧ errorCount emptyItemsTransport = 1 ∧ renderCount emptyItemsTransport = 0) :=
  ⟨rfl, rfl, c1_empty_routed_to_error emptyItemsTransport emptyItemsRaw rfl rfl⟩

/-- C2: for a response whose first item has per-day entries `fc` and validity
start `start`, `parseForecast` returns exactly one output per entry, in
source order, whose i-th element has date `start` advanced by i calendar
days and dayName the weekday name of that date; and on the concrete example
(start 2025-12-07, 4 entries) the dates are 2025-12-07 … 2025-12-10 with day
names Sun, Mon, Tue, Wed. -/
theorem c2_normalize_dates (start : CivilDate) (hv : start.Valid)
    (fc : List DayEntry) (rest : List ForecastItem) :
    (∃ out, parseForecast
        ⟨some ({ valid_period := some ⟨start⟩, forecast := some fc } :: rest)⟩ = .ok out
      ∧ out.length = fc.length
      ∧ ∀ (i : Nat) (hi : i < out.length) (hi2 : i < fc.length),
          (out.get ⟨i, hi⟩).date = nextDay^[i] start
          ∧ (out.get ⟨i, hi⟩).dayName = getDayName (nextDay^[i] start)
          ∧ (out.get ⟨i, hi⟩).condition = (fc.get ⟨i, hi2⟩).text)
    ∧ (parseForecast sampleRaw2025).toOption.map
        (fun l => l.map (fun d => (d.date, d.dayName))) =
        some [(⟨2025, 12, 7⟩, "Sun"), (⟨2025, 12, 8⟩, "Mon"),
              (⟨2025, 12, 9⟩, "Tue"), (⟨2025, 12, 10⟩, "Wed")] := by
  constructor
  · refine ⟨mapIdxFrom (mkDayForecast start) 0 fc, parseForecast_cons ⟨start⟩ fc rest,
      mapIdxFrom_length _ _ _, ?_⟩
    intro i hi hi2
    rw [mapIdxFrom_get (mkDayForecast start) fc 0 i hi2 hi]
    refine ⟨?_, ?_, rfl⟩
    · show setDatePlus start (0 + i) = nextDay^[i] start
      rw [Nat.zero_add]
      exact setDatePlus_eq_iterate i start hv
    · show getDayName (setDatePlus start (0 + i)) = getDayName (nextDay^[i] start)
      rw [Nat.zero_add, setDatePlus_eq_iterate i start hv]
  · decide

/-- Witness for C2 at the concrete validity start 2025-12-07. -/
theorem c2_witness :
    (⟨2025, 12, 7⟩ : CivilDate).Valid
    ∧ ∃ out, parseForecast sampleRaw2025 = .ok out
        ∧ out.length = sampleEntries.length := by
  have hv : (⟨2025, 12, 7⟩ : CivilDate).Valid := by decide
  obtain ⟨⟨out, h1, h2, _⟩, _⟩ := c2_normalize_dates ⟨2025, 12, 7⟩ hv sampleEntries []
  exact ⟨hv, out, h1, h2⟩

/-- C3 (counterexample): a per-day entry whose `wind` object is present but
lacks the `direction` sub-field is formatted as "undefined 10", not as the
"N/A" sentinel the claim requires when not both sub-fields are present. -/
theorem c3_counterexample :
    windNoDirEntry.wind = some { direction := none, speed := some "10" }
    ∧ (parseForecast windNoDirRaw).toOption.map (fun l => l.map (fun d => d.wind)) =
        some ["undefined 10"]
    ∧ ("undefined 10" : String) ≠ "N/A" := by decide

/-- C3 (amended): for every per-day entry, `parseForecast` produces high/low
as the integer parse of the field when it is present and nonempty and the
"N/A" sentinel otherwise (`tempField`), and produces wind as
"`<direction> <speed>`" whenever the wind object is present — absent
sub-fields are stringified as "undefined" — and the "N/A" sentinel only when
the wind object is absent (`windField`); the icon is the condition-icon
lookup applied to the condition text of the entry. -/
theorem c3_field_mapping (vp : ValidPeriod) (fc : List DayEntry)
    (rest : List ForecastItem) :
    ∃ out, parseForecast
        ⟨some ({ valid_period := some vp, forecast := some fc } :: rest)⟩ = .ok out
      ∧ out.length = fc.length
      ∧ ∀ (i : Nat) (hi : i < out.length) (hi2 : i < fc.length),
          (out.get ⟨i, hi⟩).high = tempField ((fc.get ⟨i, hi2⟩).high)
          ∧ (out.get ⟨i, hi⟩).low = tempField ((fc.get ⟨i, hi2⟩).low)
          ∧ (out.get ⟨i, hi⟩).wind = windField ((fc.get ⟨i, hi2⟩).wind)
          ∧ (out.get ⟨i, hi⟩).emoji = getWeatherEmoji ((fc.get ⟨i, hi2⟩).text) := by
  refine ⟨_, parseForecast_cons vp fc rest, mapIdxFrom_length _ _ _, ?_⟩
  intro i hi hi2
  rw [mapIdxFrom_get (mkDayForecast vp.start) fc 0 i hi2 hi]
  exact ⟨rfl, rfl, rfl, rfl⟩

/-- Witness for C3 (amended): the field mapping evaluated on the concrete
wind-without-direction entry. -/
theorem c3_witness :
    ∃ out, parseForecast windNoDirRaw = .ok out
      ∧ ∀ (hi : 0 < out.length),
          (out.get ⟨0, hi⟩).wind = windField windNoDirEntry.wind := by
  obtain ⟨out, h1, h2, h3⟩ := c3_field_mapping ⟨⟨2025, 12, 7⟩⟩ [windNoDirEntry] []
  exact ⟨out, h1, fun hi => (h3 0 hi (by decide)).2.2.1⟩

/-- C5: a run whose fetch fails (transport failure, non-success HTTP status,
or unparsable body) makes exactly one error-display call and no renderer
call; a run whose fetch succeeds with a non-empty parsed forecast makes
exactly one renderer call and no error-display call. -/
theorem c5_sink_routing (t : Transport) :
    (fetchFails t = true → errorCount t = 1 ∧ renderCount t = 0)
    ∧ (∀ data out, fetch4DayForecast t = .ok data → parseForecast data = .ok out →
        out ≠ [] → renderCount t = 1 ∧ errorCount t = 0) := by
  constructor
  · intro hf
    cases hh : fetch4DayForecast t with
    | error msg =>
      unfold errorCount renderCount initWeatherOps
      rw [hh]
      exact ⟨rfl, rfl⟩
    | ok data =>
      have hff : fetchFails t = false := by
        unfold fetchFails
        rw [hh]
      rw [hff] at hf
      exact Bool.noConfusion hf
  · intro data out hf hp hne
    have hlen : ¬ (out.length = 0) := by
      cases out with
      | nil => exact absurd rfl hne
      | cons a l => simp
    unfold renderCount errorCount initWeatherOps
    rw [hf]
    simp only [initWeatherAfterFetch]
    rw [hp]
    simp only [initWeatherAfterParse, if_neg hlen]
    exact ⟨rfl, rfl⟩

/-- Witness for C5: an HTTP-500 run routes to the error sink only; the
successful example run routes to the renderer only. -/
theorem c5_witness :
    (errorCount http500Transport = 1 ∧ renderCount http500Transport = 0)
    ∧ (renderCount sampleTransport = 1 ∧ errorCount sampleTransport = 0) :=
  ⟨(c5_sink_routing http500Transport).1 (by decide),
   (c5_sink_routing sampleTransport).2 sampleRaw2025 sampleOut (by decide)
     (by decide) (by decide)⟩

/-- C6: in every run of `initWeather`, succeeding or failing, the loading
indicator is dismissed exactly once and is not visible afterward, and
afterward exactly one of the forecast view and the error view is visible. -/
theorem c6_loading_dismissed_once (t : Transport) :
    dismissCount t = 1
    ∧ (runInitWeather t).loadingVisible = false
    ∧ ((forecastVisible t = true ∧ (runInitWeather t).errorVisible = false)
        ∨ (forecastVisible t = false ∧ (runInitWeather t).errorVisible = true)) := by
  unfold dismissCount forecastVisible runInitWeather initWeatherOps
  cases hh : fetch4DayForecast t with
  | error msg => exact ⟨rfl, rfl, Or.inr ⟨rfl, rfl⟩⟩
  | ok data =>
    simp only [initWeatherAfterFetch]
    cases hp : parseForecast data with
    | error e => exact ⟨rfl, rfl, Or.inr ⟨rfl, rfl⟩⟩
    | ok fc =>
      simp only [initWeatherAfterParse]
      by_cases hl : fc.length = 0
      · rw [if_pos hl]
        exact ⟨rfl, rfl, Or.inr ⟨rfl, rfl⟩⟩
      · rw [if_neg hl]
        exact ⟨rfl, rfl, Or.inl ⟨rfl, rfl⟩⟩

end ShoreSquad
